import Mathlib

/-!
# CFEMStandardVolumeQuadGrid

A shallow embedding of `Common/src/fem/CFEMStandardVolumeQuadGrid.cpp` (SU2 7.0.6):
the constructor and the two public member functions `DataIntegrationPoints` and
`MinMaxJacobians` of the standard quadrilateral volume element for the grid.

Conventions of the embedding.

* `su2double` is a build-dependent scalar (plain double or an AD type); the code
  in this file never computes with it, so every definition is generic in the
  scalar type `R`.
* `unsigned short` arguments are natural numbers; no arithmetic is done on them.
* A member function that writes through references or pointers is a function
  from the caller-supplied outputs before the call to the outcome of the call
  together with the outputs after it. The outcome is `Except.error d` when the
  call ends in the fatal diagnostic `d`, and `Except.ok ()` when it returns.
-/

/-! ## Types declared outside the translated file -/

/-- Modelled from the spec: the dense column-major matrix type `ColMajorMatrix<T>`,
whose declaration is not part of the translated sources. A matrix is its logical
row count, its column count and its entries stored column after column. -/
structure ColMajorMatrix (R : Type) where
  rows : Nat
  cols : Nat
  data : List R

/-- The diagnostic handed to `SU2_MPI::Error`: the message string and the string
describing the place it was raised from. -/
structure FatalError where
  message : String
  location : String
deriving DecidableEq

/-- The outcome of a call together with the caller-supplied outputs after it. -/
abbrev Call (σ : Type) : Type := σ → Except FatalError Unit × σ

/-- Modelled from the spec: `SU2_MPI::Error`, defined outside the translated
sources. Per the spec it is the fatal diagnostic channel, a deliberate hard stop:
the call does not return to its caller, and it touches none of the caller-supplied
outputs. -/
def SU2_MPI.Error {σ : Type} (ErrorMsg : String) (FunctionName : String) : Call σ :=
  fun outs => (Except.error ⟨ErrorMsg, FunctionName⟩, outs)

/-- Modelled from the spec: the `CURRENT_FUNCTION` preprocessor definition, which is
not part of the translated sources. Per the spec the diagnostic identifies the
concrete shape and the operation, so the expansion inside a member function is
the qualified name of that function. -/
def CURRENT_FUNCTION (className functionName : String) : String :=
  className ++ "::" ++ functionName

/-- A location string names `name` when `name` occurs in it as a contiguous part. -/
def Names (location name : String) : Prop :=
  ∃ pre post : String, location = pre ++ name ++ post

/-! ## The class -/

/-- The class `CFEMStandardVolumeQuadGrid`. It derives from `CFEMStandardQuad`, whose
objects are the values of the type parameter `Q`; the translated file initialises
no member besides the base-class part. -/
structure CFEMStandardVolumeQuadGrid (Q : Type) where
  toCFEMStandardQuad : Q

/-- The constructor `CFEMStandardVolumeQuadGrid(val_nPoly, val_orderExact)`: the
member initialiser list calls the base constructor `CFEMStandardQuad(val_nPoly,
val_orderExact)`, given here as the parameter `baseCtor`, and the body is empty.
A failure of the base constructor is the failure of the construction. (The
constructor cannot bear the name of the class here, which is the name of the type.) -/
def CFEMStandardVolumeQuadGrid.ctor {E Q : Type}
    (baseCtor : Nat → Nat → Except E Q) (val_nPoly val_orderExact : Nat) :
    Except E (CFEMStandardVolumeQuadGrid Q) :=
  match baseCtor val_nPoly val_orderExact with
  | Except.ok base => Except.ok ⟨base⟩
  | Except.error e => Except.error e

/-- The outputs of `DataIntegrationPoints`: the pointers `matC` and `matDerC`, each
either null or pointing to caller-owned storage. -/
structure IntegrationPointOutputs (R : Type) where
  matC : Option (ColMajorMatrix R)
  matDerC : Option (List (ColMajorMatrix R))

/-- The outputs of `MinMaxJacobians`: the references `matMetricTerms`, `Jacobians`,
`jacMin` and `jacMax`. -/
structure JacobianOutputs (R : Type) where
  matMetricTerms : List (ColMajorMatrix R)
  Jacobians : List R
  jacMin : R
  jacMax : R

/-- The member function `CFEMStandardVolumeQuadGrid::DataIntegrationPoints`. Its body
is the single statement
`SU2_MPI::Error(string("Not implemented yet"), CURRENT_FUNCTION);`. -/
def CFEMStandardVolumeQuadGrid.DataIntegrationPoints {Q R Cfg : Type}
    (_self : CFEMStandardVolumeQuadGrid Q) (_matB : ColMajorMatrix R)
    (_ldb _ldc _n : Nat) (_config : Option Cfg) : Call (IntegrationPointOutputs R) :=
  SU2_MPI.Error "Not implemented yet"
    (CURRENT_FUNCTION "CFEMStandardVolumeQuadGrid" "DataIntegrationPoints")

/-- The member function `CFEMStandardVolumeQuadGrid::MinMaxJacobians`. Its body is the
single statement `SU2_MPI::Error(string("Not implemented yet"), CURRENT_FUNCTION);`. -/
def CFEMStandardVolumeQuadGrid.MinMaxJacobians {Q R : Type}
    (_self : CFEMStandardVolumeQuadGrid Q) (_LGLDistribution : Bool)
    (_matCoor : ColMajorMatrix R) (_ldb _ldc : Nat) : Call (JacobianOutputs R) :=
  SU2_MPI.Error "Not implemented yet"
    (CURRENT_FUNCTION "CFEMStandardVolumeQuadGrid" "MinMaxJacobians")

/-! ## The base class, which is outside the translated file -/

/-- Modelled from the spec: the failure `ConfigurationError` of the error taxonomy, an
unsupported (shape, degree, integration-order) combination detected at the
construction of a standard element. -/
inductive ConstructionError where
  | ConfigurationError
deriving DecidableEq

/-- Modelled from the spec: the base class `CFEMStandardQuad`, whose definition is not
part of the translated sources. A standard element is identified by its key, the
polynomial degree and the integration-exactness order, and everything it stores is
determined by that key. -/
structure CFEMStandardQuad where
  nPoly : Nat
  orderExact : Nat
deriving DecidableEq

/-- Modelled from the spec: the constructor of `CFEMStandardQuad`, which is not part of
the translated sources. Per the spec, construction takes the polynomial degree and the
exactness order and fails with `ConfigurationError` if the combination is unsupported
for the shape. The spec does not say which combinations are supported, so the
supported set is the parameter `supported`. -/
def CFEMStandardQuad.ctor (supported : Nat → Nat → Bool) (val_nPoly val_orderExact : Nat) :
    Except ConstructionError CFEMStandardQuad :=
  if supported val_nPoly val_orderExact then Except.ok ⟨val_nPoly, val_orderExact⟩
  else Except.error ConstructionError.ConfigurationError

/-! ## Element-by-element evaluation -/

/-- The reference behaviour that batched evaluation is compared with: one call of
`DataIntegrationPoints` with batch count 1 for each element of `elems`, in input
order. A fatal diagnostic ends the run at the element that raised it; the empty run
returns normally. -/
def singleElementCalls {Q R Cfg : Type} (self : CFEMStandardVolumeQuadGrid Q)
    (ldb ldc : Nat) (config : Option Cfg) :
    List (ColMajorMatrix R) → Call (IntegrationPointOutputs R)
  | [], outs => (Except.ok (), outs)
  | matB :: rest, outs =>
    match self.DataIntegrationPoints matB ldb ldc 1 config outs with
    | (Except.ok (), outs1) => singleElementCalls self ldb ldc config rest outs1
    | (Except.error d, outs1) => (Except.error d, outs1)

/-! ## Concrete inputs -/

/-- The standard element `CFEMStandardVolumeQuadGrid(2, 4)`. -/
def quadGrid24 : CFEMStandardVolumeQuadGrid CFEMStandardQuad := ⟨⟨2, 4⟩⟩

/-- The standard element `CFEMStandardVolumeQuadGrid(1, 2)`. -/
def quadGrid12 : CFEMStandardVolumeQuadGrid CFEMStandardQuad := ⟨⟨1, 2⟩⟩

/-- The nine nodes of the unit square for polynomial degree 2, in tensor-product
order: the x coordinates followed by the y coordinates. -/
def unitSquareNodes : List ℚ :=
  [0, 1/2, 1, 0, 1/2, 1, 0, 1/2, 1] ++ [0, 0, 0, 1/2, 1/2, 1/2, 1, 1, 1]

/-- The coordinates of one unit-square element: 9 rows, one column per dimension. -/
def unitSquareCoor : ColMajorMatrix ℚ := ⟨9, 2, unitSquareNodes⟩

/-- A batch of 3 identical unit-square elements: 9 rows, 2 columns per element. -/
def unitSquareBatch : ColMajorMatrix ℚ :=
  ⟨9, 6, unitSquareNodes ++ unitSquareNodes ++ unitSquareNodes⟩

/-- A bilinear quadrilateral with nodes (0,0), (1,0), (0,1) and the fourth node moved
from (1,1) through the opposite corner to (-1,-1), so that the element is inverted:
the x coordinates followed by the y coordinates. -/
def invertedQuadCoor : ColMajorMatrix ℚ := ⟨4, 2, [0, 1, 0, -1] ++ [0, 0, 1, -1]⟩

/-- Output storage for `DataIntegrationPoints` as a caller hands it over: zeroed
matrices for the values and for the two derivative blocks. -/
def zeroIntegrationPointOutputs (rows cols : Nat) : IntegrationPointOutputs ℚ :=
  ⟨some ⟨rows, cols, List.replicate (rows * cols) 0⟩,
   some [⟨rows, cols, List.replicate (rows * cols) 0⟩,
         ⟨rows, cols, List.replicate (rows * cols) 0⟩]⟩

/-- Output storage for `MinMaxJacobians` as a caller hands it over: `nInt` zeroed
Jacobians and the given initial values of `jacMin` and `jacMax`. -/
def initialJacobianOutputs (nInt : Nat) (jacMin jacMax : ℚ) : JacobianOutputs ℚ :=
  ⟨[], List.replicate nInt 0, jacMin, jacMax⟩

/-! ## Theorems -/

/-- C1: for every input, `DataIntegrationPoints` ends in the fatal diagnostic with the
message "Not implemented yet" raised through `SU2_MPI::Error`, and it never returns
a normal result. -/
theorem DataIntegrationPoints_not_implemented {Q R Cfg : Type}
    (self : CFEMStandardVolumeQuadGrid Q) (matB : ColMajorMatrix R) (ldb ldc n : Nat)
    (config : Option Cfg) (outs : IntegrationPointOutputs R) :
    (∃ location : String, self.DataIntegrationPoints matB ldb ldc n config outs
        = SU2_MPI.Error "Not implemented yet" location outs) ∧
      (∃ d : FatalError, d.message = "Not implemented yet" ∧
        (self.DataIntegrationPoints matB ldb ldc n config outs).1 = Except.error d) ∧
      (self.DataIntegrationPoints matB ldb ldc n config outs).1 ≠ Except.ok () := by
  refine ⟨⟨_, rfl⟩, ⟨_, rfl, rfl⟩, ?_⟩
  intro h
  cases h

/-- C2: for every input, `MinMaxJacobians` ends in the fatal diagnostic with the message
"Not implemented yet" raised through `SU2_MPI::Error`, and it never returns a normal
result. -/
theorem MinMaxJacobians_not_implemented {Q R : Type}
    (self : CFEMStandardVolumeQuadGrid Q) (LGLDistribution : Bool)
    (matCoor : ColMajorMatrix R) (ldb ldc : Nat) (outs : JacobianOutputs R) :
    (∃ location : String, self.MinMaxJacobians LGLDistribution matCoor ldb ldc outs
        = SU2_MPI.Error "Not implemented yet" location outs) ∧
      (∃ d : FatalError, d.message = "Not implemented yet" ∧
        (self.MinMaxJacobians LGLDistribution matCoor ldb ldc outs).1 = Except.error d) ∧
      (self.MinMaxJacobians LGLDistribution matCoor ldb ldc outs).1 ≠ Except.ok () := by
  refine ⟨⟨_, rfl⟩, ⟨_, rfl, rfl⟩, ?_⟩
  intro h
  cases h

/-- C3: the diagnostic of `DataIntegrationPoints` has the message "Not implemented yet"
and a location naming `CFEMStandardVolumeQuadGrid` and `DataIntegrationPoints`; the
diagnostic of `MinMaxJacobians` has the same message and a location naming
`CFEMStandardVolumeQuadGrid` and `MinMaxJacobians`; the two diagnostics differ. -/
theorem not_implemented_diagnostic_names_shape_and_operation {Q R Cfg : Type}
    (self : CFEMStandardVolumeQuadGrid Q) (matB matCoor : ColMajorMatrix R)
    (ldb ldc n ldb2 ldc2 : Nat) (config : Option Cfg) (LGLDistribution : Bool)
    (outs : IntegrationPointOutputs R) (jacOuts : JacobianOutputs R) :
    ∃ d1 d2 : FatalError,
      (self.DataIntegrationPoints matB ldb ldc n config outs).1 = Except.error d1 ∧
      (self.MinMaxJacobians LGLDistribution matCoor ldb2 ldc2 jacOuts).1 = Except.error d2 ∧
      d1.message = "Not implemented yet" ∧
      Names d1.location "CFEMStandardVolumeQuadGrid" ∧
      Names d1.location "DataIntegrationPoints" ∧
      d2.message = "Not implemented yet" ∧
      Names d2.location "CFEMStandardVolumeQuadGrid" ∧
      Names d2.location "MinMaxJacobians" ∧
      d1 ≠ d2 := by
  refine ⟨_, _, rfl, rfl, rfl, ⟨"", "::DataIntegrationPoints", ?_⟩,
    ⟨"CFEMStandardVolumeQuadGrid::", "", ?_⟩, rfl, ⟨"", "::MinMaxJacobians", ?_⟩,
    ⟨"CFEMStandardVolumeQuadGrid::", "", ?_⟩, ?_⟩
  · decide
  · decide
  · decide
  · decide
  · decide

/-- C4: no partial results for a failed call. Whenever `DataIntegrationPoints` fails,
`matC` and `matDerC` hold the values they held before the call, and whenever
`MinMaxJacobians` fails, `matMetricTerms`, `Jacobians`, `jacMin` and `jacMax` hold
the values they held before the call. -/
theorem failed_call_leaves_outputs_unchanged {Q R Cfg : Type}
    (self : CFEMStandardVolumeQuadGrid Q) (matB matCoor : ColMajorMatrix R)
    (ldb ldc n ldb2 ldc2 : Nat) (config : Option Cfg) (LGLDistribution : Bool)
    (outs : IntegrationPointOutputs R) (jacOuts : JacobianOutputs R) :
    ((∃ d, (self.DataIntegrationPoints matB ldb ldc n config outs).1 = Except.error d) →
        (self.DataIntegrationPoints matB ldb ldc n config outs).2.matC = outs.matC ∧
        (self.DataIntegrationPoints matB ldb ldc n config outs).2.matDerC = outs.matDerC) ∧
      ((∃ d, (self.MinMaxJacobians LGLDistribution matCoor ldb2 ldc2 jacOuts).1
            = Except.error d) →
        (self.MinMaxJacobians LGLDistribution matCoor ldb2 ldc2 jacOuts).2.matMetricTerms
          = jacOuts.matMetricTerms ∧
        (self.MinMaxJacobians LGLDistribution matCoor ldb2 ldc2 jacOuts).2.Jacobians
          = jacOuts.Jacobians ∧
        (self.MinMaxJacobians LGLDistribution matCoor ldb2 ldc2 jacOuts).2.jacMin
          = jacOuts.jacMin ∧
        (self.MinMaxJacobians LGLDistribution matCoor ldb2 ldc2 jacOuts).2.jacMax
          = jacOuts.jacMax) :=
  ⟨fun _ => ⟨rfl, rfl⟩, fun _ => ⟨rfl, rfl, rfl, rfl⟩⟩

/-- Witness for C4: both calls fail on a unit-square input, and the zeroed output
storage and the initial extrema 7 and 9 are what the caller finds afterwards. -/
theorem failed_call_leaves_outputs_unchanged_witness :
    ((∃ d, (quadGrid24.DataIntegrationPoints unitSquareBatch 9 9 3 (some ())
          (zeroIntegrationPointOutputs 9 6)).1 = Except.error d) ∧
      (quadGrid24.DataIntegrationPoints unitSquareBatch 9 9 3 (some ())
          (zeroIntegrationPointOutputs 9 6)).2.matC = (zeroIntegrationPointOutputs 9 6).matC ∧
      (quadGrid24.DataIntegrationPoints unitSquareBatch 9 9 3 (some ())
          (zeroIntegrationPointOutputs 9 6)).2.matDerC
        = (zeroIntegrationPointOutputs 9 6).matDerC) ∧
    ((∃ d, (quadGrid24.MinMaxJacobians true unitSquareCoor 9 9
          (initialJacobianOutputs 9 7 9)).1 = Except.error d) ∧
      (quadGrid24.MinMaxJacobians true unitSquareCoor 9 9
          (initialJacobianOutputs 9 7 9)).2.Jacobians = List.replicate 9 0 ∧
      (quadGrid24.MinMaxJacobians true unitSquareCoor 9 9
          (initialJacobianOutputs 9 7 9)).2.jacMin = 7 ∧
      (quadGrid24.MinMaxJacobians true unitSquareCoor 9 9
          (initialJacobianOutputs 9 7 9)).2.jacMax = 9) :=
  have h := failed_call_leaves_outputs_unchanged quadGrid24 unitSquareBatch unitSquareCoor
    9 9 3 9 9 (some ()) true (zeroIntegrationPointOutputs 9 6) (initialJacobianOutputs 9 7 9)
  have h1 := h.1 ⟨_, rfl⟩
  have h2 := h.2 ⟨_, rfl⟩
  ⟨⟨⟨_, rfl⟩, h1.1, h1.2⟩, ⟨⟨_, rfl⟩, h2.2.1, h2.2.2.1, h2.2.2.2⟩⟩

/-- C5 as stated fails: on a batch of 3 identical unit-square elements the element
`CFEMStandardVolumeQuadGrid(2, 4)` does not return Jacobians that are all equal to 1
together with `jacMin = jacMax = 1`. -/
theorem unit_square_batch_claim_fails :
    ¬ ((quadGrid24.DataIntegrationPoints unitSquareBatch 9 9 3 (some ())
          (zeroIntegrationPointOutputs 9 6)).1 = Except.ok () ∧
       (quadGrid24.MinMaxJacobians true unitSquareCoor 9 9
          (initialJacobianOutputs 9 0 0)).1 = Except.ok () ∧
       (∀ j ∈ (quadGrid24.MinMaxJacobians true unitSquareCoor 9 9
          (initialJacobianOutputs 9 0 0)).2.Jacobians, j = 1) ∧
       (quadGrid24.MinMaxJacobians true unitSquareCoor 9 9
          (initialJacobianOutputs 9 0 0)).2.jacMin = 1 ∧
       (quadGrid24.MinMaxJacobians true unitSquareCoor 9 9
          (initialJacobianOutputs 9 0 0)).2.jacMax = 1) := by
  intro h
  cases h.1

/-- C5 amended: on a batch of 3 identical unit-square elements the element
`CFEMStandardVolumeQuadGrid(2, 4)` returns no Jacobian field. `DataIntegrationPoints`
and `MinMaxJacobians` both end in the fatal diagnostic "Not implemented yet", and the
Jacobians, `jacMin` and `jacMax` keep the values they had before the call. -/
theorem unit_square_batch_not_implemented (outs : IntegrationPointOutputs ℚ)
    (jacOuts : JacobianOutputs ℚ) (LGLDistribution : Bool) (ldb ldc : Nat) :
    (∃ d : FatalError, d.message = "Not implemented yet" ∧
        quadGrid24.DataIntegrationPoints unitSquareBatch ldb ldc 3 (some ()) outs
          = (Except.error d, outs)) ∧
      (∃ d : FatalError, d.message = "Not implemented yet" ∧
        quadGrid24.MinMaxJacobians LGLDistribution unitSquareCoor ldb ldc jacOuts
          = (Except.error d, jacOuts)) :=
  ⟨⟨_, rfl, rfl⟩, ⟨_, rfl, rfl⟩⟩

/-- Every single-element run over a nonempty list of elements ends in the diagnostic of
its first call, with the outputs untouched. -/
theorem singleElementCalls_cons {Q R Cfg : Type} (self : CFEMStandardVolumeQuadGrid Q)
    (ldb ldc : Nat) (config : Option Cfg) (matB : ColMajorMatrix R)
    (rest : List (ColMajorMatrix R)) (outs : IntegrationPointOutputs R) :
    singleElementCalls self ldb ldc config (matB :: rest) outs
      = self.DataIntegrationPoints matB ldb ldc 1 config outs := rfl

/-- C6: batching does not alter the outcome. For every batch count `n ≥ 1`, every
coordinate batch `matB` and every list `elems` of the `n` single-element coordinate
matrices, the call on the whole batch has the same outcome and leaves the same
outputs as each single-element call with batch count 1, and as the run of the `n`
single-element calls in input order. -/
theorem batched_call_eq_single_element_calls {Q R Cfg : Type}
    (self : CFEMStandardVolumeQuadGrid Q) (matB : ColMajorMatrix R)
    (elems : List (ColMajorMatrix R)) (ldb ldc n : Nat) (config : Option Cfg)
    (outs : IntegrationPointOutputs R) (hn : 1 ≤ n) (hlen : elems.length = n) :
    (∀ e ∈ elems, self.DataIntegrationPoints matB ldb ldc n config outs
        = self.DataIntegrationPoints e ldb ldc 1 config outs) ∧
      self.DataIntegrationPoints matB ldb ldc n config outs
        = singleElementCalls self ldb ldc config elems outs := by
  refine ⟨fun _ _ => rfl, ?_⟩
  cases elems with
  | nil => simp at hlen; omega
  | cons e rest => rw [singleElementCalls_cons]; rfl

/-- Witness for C6: the batch of 3 unit squares against its 3 single elements. -/
theorem batched_call_eq_single_element_calls_witness :
    (1 ≤ 3) ∧ [unitSquareCoor, unitSquareCoor, unitSquareCoor].length = 3 ∧
      quadGrid24.DataIntegrationPoints unitSquareBatch 9 9 3 (some ())
          (zeroIntegrationPointOutputs 9 6)
        = singleElementCalls quadGrid24 9 9 (some ())
            [unitSquareCoor, unitSquareCoor, unitSquareCoor]
            (zeroIntegrationPointOutputs 9 6) :=
  ⟨by decide, rfl,
    (batched_call_eq_single_element_calls quadGrid24 unitSquareBatch
      [unitSquareCoor, unitSquareCoor, unitSquareCoor] 9 9 3 (some ())
      (zeroIntegrationPointOutputs 9 6) (by decide) rfl).2⟩

/-- C7 as stated fails: for the inverted quadrilateral and a caller whose `jacMin` is 1
before the call, `MinMaxJacobians` does not return, and `jacMin` is not `≤ 0`
afterwards. -/
theorem inverted_element_not_flagged :
    (quadGrid12.MinMaxJacobians true invertedQuadCoor 4 4
        (initialJacobianOutputs 4 1 1)).1 ≠ Except.ok () ∧
      ¬ ((quadGrid12.MinMaxJacobians true invertedQuadCoor 4 4
        (initialJacobianOutputs 4 1 1)).2.jacMin ≤ 0) := by
  refine ⟨?_, ?_⟩
  · intro h
    cases h
  · show ¬ ((1 : ℚ) ≤ 0)
    norm_num

/-- C7 amended: for every quadrilateral element, inverted or not, `MinMaxJacobians`
ends in the fatal diagnostic "Not implemented yet" without computing a Jacobian
determinant, and `jacMin` holds the value it held before the call. -/
theorem MinMaxJacobians_computes_no_minimum {Q R : Type}
    (self : CFEMStandardVolumeQuadGrid Q) (LGLDistribution : Bool)
    (matCoor : ColMajorMatrix R) (ldb ldc : Nat) (outs : JacobianOutputs R) :
    (∃ d : FatalError, d.message = "Not implemented yet" ∧
        (self.MinMaxJacobians LGLDistribution matCoor ldb ldc outs).1 = Except.error d) ∧
      (self.MinMaxJacobians LGLDistribution matCoor ldb ldc outs).2.jacMin = outs.jacMin :=
  ⟨⟨_, rfl, rfl⟩, rfl⟩

/-- C8: constructing a `CFEMStandardVolumeQuadGrid` fails with `ConfigurationError`
exactly for the combinations of polynomial degree and exactness order that are
unsupported for the quadrilateral, and succeeds exactly for the supported ones. -/
theorem ctor_fails_iff_unsupported (supported : Nat → Nat → Bool)
    (val_nPoly val_orderExact : Nat) :
    (CFEMStandardVolumeQuadGrid.ctor (CFEMStandardQuad.ctor supported) val_nPoly val_orderExact
        = Except.error ConstructionError.ConfigurationError
        ↔ supported val_nPoly val_orderExact = false) ∧
      ((∃ element, CFEMStandardVolumeQuadGrid.ctor (CFEMStandardQuad.ctor supported)
          val_nPoly val_orderExact = Except.ok element)
        ↔ supported val_nPoly val_orderExact = true) := by
  unfold CFEMStandardVolumeQuadGrid.ctor CFEMStandardQuad.ctor
  cases h : supported val_nPoly val_orderExact <;> simp

/-- C9: the constructor hands `val_nPoly` and `val_orderExact` unchanged and in that
order to the base constructor and adds nothing to what the base constructor built,
so constructions with equal keys give equal results. -/
theorem ctor_equal_keys_equal_elements {E Q : Type} (baseCtor : Nat → Nat → Except E Q)
    (nPoly1 orderExact1 nPoly2 orderExact2 : Nat)
    (hkey : (nPoly1, orderExact1) = (nPoly2, orderExact2)) :
    CFEMStandardVolumeQuadGrid.ctor baseCtor nPoly1 orderExact1
        = Except.map CFEMStandardVolumeQuadGrid.mk (baseCtor nPoly1 orderExact1) ∧
      (∀ base, baseCtor nPoly1 orderExact1 = Except.ok base →
        CFEMStandardVolumeQuadGrid.ctor baseCtor nPoly1 orderExact1 = Except.ok ⟨base⟩) ∧
      CFEMStandardVolumeQuadGrid.ctor baseCtor nPoly1 orderExact1
        = CFEMStandardVolumeQuadGrid.ctor baseCtor nPoly2 orderExact2 := by
  obtain ⟨h1, h2⟩ := Prod.mk.inj hkey
  subst h1 h2
  refine ⟨?_, ?_, rfl⟩
  · unfold CFEMStandardVolumeQuadGrid.ctor
    cases baseCtor nPoly1 orderExact1 <;> rfl
  · intro base hbase
    unfold CFEMStandardVolumeQuadGrid.ctor
    rw [hbase]

/-- Witness for C9: two constructions with the key (2, 4) over a base constructor that
supports every combination; both give the element built for degree 2 and order 4. -/
theorem ctor_equal_keys_equal_elements_witness :
    ((2, 4) : Nat × Nat) = (2, 4) ∧
      CFEMStandardVolumeQuadGrid.ctor (CFEMStandardQuad.ctor fun _ _ => true) 2 4
        = Except.ok quadGrid24 ∧
      CFEMStandardVolumeQuadGrid.ctor (CFEMStandardQuad.ctor fun _ _ => true) 2 4
        = CFEMStandardVolumeQuadGrid.ctor (CFEMStandardQuad.ctor fun _ _ => true) 2 4 :=
  ⟨rfl, (ctor_equal_keys_equal_elements (CFEMStandardQuad.ctor fun _ _ => true) 2 4 2 4 rfl).2.1
      ⟨2, 4⟩ rfl,
    (ctor_equal_keys_equal_elements (CFEMStandardQuad.ctor fun _ _ => true) 2 4 2 4 rfl).2.2⟩

/-- C10: the outcome of `MinMaxJacobians` and the outputs it leaves do not depend on
the node-distribution flag `LGLDistribution`. -/
theorem MinMaxJacobians_independent_of_distribution {Q R : Type}
    (self : CFEMStandardVolumeQuadGrid Q) (matCoor : ColMajorMatrix R) (ldb ldc : Nat)
    (outs : JacobianOutputs R) :
    self.MinMaxJacobians true matCoor ldb ldc outs
      = self.MinMaxJacobians false matCoor ldb ldc outs := rfl
